import Mathlib

/-!
Verification development for the bookify meeting-room booking tool.

The definitions below are a shallow embedding of the repository's source:
the pure time/date helpers (`populateTimeOptions`, `toMinutesSinceMidnight`,
`formatTime`, `getTimezoneOffset`, `convertToRFC3339`), the front-end API
client's error policy and 401-refresh interceptor, and the booking view's
availability / submission state transitions.

Ambient runtime inputs (the wall clock, the runtime's timezone offset in
minutes as returned by JavaScript's `Date.prototype.getTimezoneOffset`, the
outcome of each HTTP request) are passed as explicit parameters.  JavaScript
exceptions are modelled as `Option`/explicit outcome values.
-/

namespace Bookify

/-! ## Time/date utilities (utility helpers source file) -/

/-- Embeds `toMinutesSinceMidnight(hours, minutes)`: `hours * 60 + minutes`. -/
def toMinutesSinceMidnight (hours minutes : Nat) : Nat :=
  hours * 60 + minutes

/-- Embeds `formatTime(hours, minutes)`.  The JS computes the AM/PM suffix from
the pre-modulo hour, then takes `hours % 12`, mapping a zero result (a falsy
value in JS) to 12, and zero-pads minutes below 10. -/
def formatTime (hours minutes : Nat) : String :=
  let ampm := if hours ≥ 12 then "PM" else "AM"
  let h1 := hours % 12
  let h2 := if h1 = 0 then 12 else h1
  let minuteStr := if minutes < 10 then "0" ++ toString minutes else toString minutes
  toString h2 ++ ":" ++ minuteStr ++ " " ++ ampm

/-- Embeds `populateTimeOptions()`.  The current wall-clock reading
`now.getHours()` / `now.getMinutes()` is passed explicitly as
`nowHours` / `nowMinutes`.  The source floors the minutes to a multiple of 15,
keeps the (dead, since `Math.floor(m / 15) * 15 ≤ 45` for `m ≤ 59`) overflow
branch, and then filters the 96 quarter-hour slots of the day. -/
def populateTimeOptions (nowHours nowMinutes : Nat) : List String :=
  let flooredMinutes := nowMinutes / 15 * 15
  let current :=
    if flooredMinutes = 60 then toMinutesSinceMidnight (nowHours + 1) 0
    else toMinutesSinceMidnight nowHours flooredMinutes
  (List.range (24 * 4)).filterMap (fun i =>
    let hours := i / 4
    let minutes := i % 4 * 15
    if current ≤ toMinutesSinceMidnight hours minutes then
      some (formatTime hours minutes)
    else none)

/-- Embeds JS `String(n).padStart(2, '0')` for a natural number `n`. -/
def pad2 (n : Nat) : String :=
  if n < 10 then "0" ++ toString n else toString n

/-- Embeds `getTimezoneOffset()`.  The runtime value
`new Date().getTimezoneOffset()` (minutes, west of UTC positive) is the
explicit parameter `offsetInMinutes`.  The source picks `'+'` when the runtime
offset is `≤ 0` and `'-'` otherwise, then renders `|offset| / 60` and
`|offset| % 60` zero-padded to two digits. -/
def getTimezoneOffset (offsetInMinutes : Int) : String :=
  let sign := if offsetInMinutes ≤ 0 then "+" else "-"
  let offsetInHours := offsetInMinutes.natAbs / 60
  let offsetInRemainingMinutes := offsetInMinutes.natAbs % 60
  sign ++ pad2 offsetInHours ++ ":" ++ pad2 offsetInRemainingMinutes

/-- Numeric value of a decimal digit character. -/
def digitVal (c : Char) : Nat :=
  c.toNat - '0'.toNat

/-- Embeds the unanchored regex search `/([+-])(\d\x7b2\x7d):(\d\x7b2\x7d)/`
followed by `parseInt` on the two captured digit groups: scan left to right
for a sign character followed by two ASCII digits, a colon, and two ASCII
digits; `none` models a failed match (the JS non-null assertion then throws). -/
def offsetMatch : List Char → Option (Char × Nat × Nat)
  | s :: a :: b :: k :: c :: d :: rest =>
    if (s = '+' ∨ s = '-') ∧ a.isDigit ∧ b.isDigit ∧ k = ':' ∧ c.isDigit ∧ d.isDigit then
      some (s, digitVal a * 10 + digitVal b, digitVal c * 10 + digitVal d)
    else offsetMatch (a :: b :: k :: c :: d :: rest)
  | _ => none

/-- Splits a character list on a single-character separator, keeping empty
groups, exactly like JS `String.prototype.split` with a one-character
separator (every use in this code base splits on a single character). -/
def splitOnChar (sep : Char) : List Char → List (List Char)
  | [] => [[]]
  | c :: rest =>
    match splitOnChar sep rest with
    | [] => if c = sep then [[], []] else [[c]]
    | g :: gs => if c = sep then [] :: g :: gs else (c :: g) :: gs

/-- Embeds JS `s.split(sep)` for a one-character separator. -/
def splitString (sep : Char) (s : String) : List String :=
  (splitOnChar sep s.data).map (fun g => String.mk g)

/-- Tests whether `p` is a suffix of `s` (the "string ending in ..." relation
used by the spec's expected literals). -/
def strEndsWith (s p : String) : Bool :=
  p.data.isSuffixOf s.data

/-- Parses a nonempty all-digit string to a natural number (helper for the
model of JS `new Date(string)` on the formats this code base feeds it). -/
def parseNat (s : String) : Option Nat :=
  if s.data ≠ [] ∧ s.data.all Char.isDigit then
    some (s.data.foldl (fun a c => a * 10 + digitVal c) 0)
  else none

/-- Models the date half of JS `new Date("YYYY-MM-DD H:MM AM")`: a
`"YYYY-MM-DD"` string yields a civil date; anything else is an invalid date
(`none`), on which `toISOString` later throws. -/
def parseDateYMD (s : String) : Option (Int × Nat × Nat) :=
  match splitString '-' s with
  | [ys, ms, ds] =>
    match parseNat ys, parseNat ms, parseNat ds with
    | some y, some mo, some d =>
      if ys.length = 4 ∧ 1 ≤ mo ∧ mo ≤ 12 ∧ 1 ≤ d ∧ d ≤ 31 then
        some ((y : Int), mo, d)
      else none
    | _, _, _ => none
  | _ => none

/-- Models the time half of JS `new Date("YYYY-MM-DD H:MM AM")`: a 12-hour
`"H:MM AM"`/`"H:MM PM"` string yields minutes since local midnight. -/
def parseTime12 (s : String) : Option Nat :=
  match splitString ' ' s with
  | [hm, ap] =>
    match splitString ':' hm with
    | [hs, ms] =>
      match parseNat hs, parseNat ms with
      | some h, some m =>
        if 1 ≤ h ∧ h ≤ 12 ∧ ms.length = 2 ∧ m ≤ 59 ∧ (ap = "AM" ∨ ap = "PM") then
          some ((h % 12 + if ap = "PM" then 12 else 0) * 60 + m)
        else none
      | _, _ => none
    | _ => none
  | _ => none

/-- Days since 1970-01-01 of a proleptic-Gregorian civil date (the arithmetic
underlying the JS `Date` epoch; Hinnant's algorithm). -/
def daysFromCivil (y : Int) (m d : Nat) : Int :=
  let y2 : Int := if m ≤ 2 then y - 1 else y
  let era : Int := Int.fdiv y2 400
  let yoe : Nat := (y2 - era * 400).toNat
  let mp : Nat := if m > 2 then m - 3 else m + 9
  let doy : Nat := (153 * mp + 2) / 5 + d - 1
  let doe : Nat := yoe * 365 + yoe / 4 - yoe / 100 + doy
  era * 146097 + (doe : Int) - 719468

/-- Civil date of a days-since-1970 count (inverse direction of
`daysFromCivil`; Hinnant's algorithm). -/
def civilFromDays (z0 : Int) : Int × Nat × Nat :=
  let z := z0 + 719468
  let era : Int := Int.fdiv z 146097
  let doe : Nat := (z - era * 146097).toNat
  let yoe : Nat := (doe - doe / 1460 + doe / 36524 - doe / 146096) / 365
  let doy : Nat := doe - (365 * yoe + yoe / 4 - yoe / 100)
  let mp : Nat := (5 * doy + 2) / 153
  let d : Nat := doy - (153 * mp + 2) / 5 + 1
  let m : Nat := if mp < 10 then mp + 3 else mp - 9
  ((yoe : Int) + era * 400 + (if m ≤ 2 then 1 else 0), m, d)

/-- Embeds JS `String(n).padStart(4, '0')`-style year rendering used inside
`toISOString` (the events in this code base stay within years 0-9999). -/
def pad4 (n : Nat) : String :=
  if n < 10 then "000" ++ toString n
  else if n < 100 then "00" ++ toString n
  else if n < 1000 then "0" ++ toString n
  else toString n

/-- Models `Date.prototype.toISOString` for a timestamp measured in whole
minutes since the UTC epoch (all timestamps this code builds have zero
seconds/milliseconds): `"YYYY-MM-DDTHH:MM:00.000Z"`. -/
def isoFromEpochMinutes (e : Int) : String :=
  let day := Int.fdiv e 1440
  let rem := (e - day * 1440).toNat
  match civilFromDays day with
  | (y, mo, d) =>
    pad4 y.toNat ++ "-" ++ pad2 mo ++ "-" ++ pad2 d ++ "T" ++
      pad2 (rem / 60) ++ ":" ++ pad2 (rem % 60) ++ ":00.000Z"

/-- Embeds `convertToRFC3339(dateString, timeString)`.  The runtime timezone
offset (JS `getTimezoneOffset()`, west positive) is the explicit parameter
`tzOffsetMinutes`; `new Date(dateString + " " + timeString)` parses the pair
as a local wall-clock instant, so its epoch value in minutes is
`days * 1440 + localMinutes + tzOffsetMinutes`.  `none` models the two throw
sites: a failed regex match on the offset string (the `!` assertion) and
`toISOString` on an invalid date. -/
def convertToRFC3339 (tzOffsetMinutes : Int) (dateString timeString : String) : Option String :=
  let timeZoneOffset := getTimezoneOffset tzOffsetMinutes
  let parsed : Option Int :=
    match parseDateYMD dateString, parseTime12 timeString with
    | some (y, mo, d), some localMinutes =>
      some (daysFromCivil y mo d * 1440 + (localMinutes : Int) + tzOffsetMinutes)
    | _, _ => none
  match offsetMatch timeZoneOffset.data with
  | none => none
  | some (sgn, oh, om) =>
    match parsed with
    | none => none
    | some e0 =>
      let offsetInMinutes : Int := ((oh * 60 + om : Nat) : Int) * (if sgn = '+' then 1 else -1)
      let e1 := e0 + offsetInMinutes
      let isoString := isoFromEpochMinutes e1
      match splitString 'T' isoString with
      | [isoDate, isoTime] =>
        some (isoDate ++ "T" ++ (splitString '.' isoTime).headD "" ++ timeZoneOffset)
      | _ => none

/-! ## Shared API envelope and error shapes (API client source file) -/

/-- Embeds the uniform response envelope `ApiResponse<T> = (status, message?,
data?)` with `status ∈ ("success", "error", "ignore")` kept as a string, as in
the source's `StatusTypes`. -/
structure ApiResponse (α : Type) where
  status : String
  message : Option String
  data : Option α
deriving DecidableEq

/-- Embeds the parts of an axios error object the client inspects:
`error.code` (`"ERR_CANCELED"` marks an aborted request) and
`error.response?.data` (the server's own envelope, when the response carried
one). -/
structure ApiError (α : Type) where
  code : Option String
  responseData : Option (ApiResponse α)
deriving DecidableEq

/-- Embeds a conference room as used by the booking view: `email` (resource
key), `name`, `seats`, `floor`. -/
structure IConferenceRoom where
  email : String
  name : String
  seats : Nat
  floor : String
deriving DecidableEq

/-- Embeds the fields of `EventResponse` the booking flow reads. -/
structure EventResponse where
  room : Option String
deriving DecidableEq

/-- Embeds the booking payload `BookRoomDto`. -/
structure BookRoomDto where
  startTime : String
  duration : Nat
  seats : Nat
  floor : Option String
  timeZone : String
  createConference : Bool
  title : Option String
  room : String
  attendees : List String
deriving DecidableEq

/-- Outcome of one awaited client call inside a public API method: either the
HTTP layer resolved (the interceptor already ran) and `res.data` is the parsed
envelope, or the await threw an error object. -/
inductive CallOutcome (α : Type) where
  | resolved (res : ApiResponse α)
  | thrown (e : ApiError α)
deriving DecidableEq

namespace Api

/-- Embeds `Api.createReply(status, message?, data?)`. -/
def createReply {α : Type} (status : String) (message : Option String) (data : Option α) :
    ApiResponse α :=
  { status := status, message := message, data := data }

/-- Embeds `Api.handleError(error)`: an `ERR_CANCELED` code (an aborted
request) maps to an "ignore" envelope; otherwise the server's own envelope is
returned when the error carries one, and a generic "error" envelope when it
does not. -/
def handleError {α : Type} (error : ApiError α) : ApiResponse α :=
  if error.code = some "ERR_CANCELED" then
    createReply "ignore" (some "Pending request aborted") none
  else
    match error.responseData with
    | some res => res
    | none => createReply "error" (some "Something went wrong") none

/-- Embeds `Api.getAvailableRooms` as its try/catch skeleton: the resolved
envelope is returned as-is, and every thrown error is routed through
`handleError`; the method itself never throws. -/
def getAvailableRooms (outcome : CallOutcome (List IConferenceRoom)) :
    ApiResponse (List IConferenceRoom) :=
  match outcome with
  | .resolved res => res
  | .thrown e => handleError e

/-- Embeds `Api.getRooms` (same try/catch skeleton as `getAvailableRooms`). -/
def getRooms (outcome : CallOutcome (List EventResponse)) : ApiResponse (List EventResponse) :=
  match outcome with
  | .resolved res => res
  | .thrown e => handleError e

/-- Embeds `Api.createEvent` (same try/catch skeleton). -/
def createEvent (outcome : CallOutcome EventResponse) : ApiResponse EventResponse :=
  match outcome with
  | .resolved res => res
  | .thrown e => handleError e

/-- Embeds `Api.updateEvent` (same try/catch skeleton). -/
def updateEvent (outcome : CallOutcome EventResponse) : ApiResponse EventResponse :=
  match outcome with
  | .resolved res => res
  | .thrown e => handleError e

/-- Embeds `Api.deleteEvent` (same try/catch skeleton; the delete payload is
left abstract as a `Bool`). -/
def deleteEvent (outcome : CallOutcome Bool) : ApiResponse Bool :=
  match outcome with
  | .resolved res => res
  | .thrown e => handleError e

/-- Embeds `Api.getMaxSeatCount` (same try/catch skeleton). -/
def getMaxSeatCount (outcome : CallOutcome Nat) : ApiResponse Nat :=
  match outcome with
  | .resolved res => res
  | .thrown e => handleError e

/-- Embeds `Api.getFloors` (same try/catch skeleton). -/
def getFloors (outcome : CallOutcome (List String)) : ApiResponse (List String) :=
  match outcome with
  | .resolved res => res
  | .thrown e => handleError e

end Api

/-! ## 401 token-refresh interceptor (`Api.handleTokenRefresh` / `Api.refreshToken`) -/

/-- Result of one HTTP attempt as the axios promise chain sees it: a resolved
response (identified by an id) or a rejected error with its HTTP status (when
a response arrived at all) and an identity tag distinguishing error objects. -/
inductive HttpResult where
  | ok (responseId : Nat)
  | err (status : Option Nat) (errorId : Nat)
deriving DecidableEq

/-- Observable side effects of the client while running one request. -/
inductive ClientEffect where
  | httpAttempt (n : Nat)
  | refreshCall
  | logoutCall
  | navigateSignIn
deriving DecidableEq

/-- Verdict of the response-error interceptor: reject with an error, or replay
the original request (after a successful token refresh). -/
inductive ErrorOutcome where
  | reject (status : Option Nat) (errorId : Nat) (effects : List ClientEffect)
  | replay (effects : List ClientEffect)
deriving DecidableEq

/-- Embeds the error branch of the interceptor installed by
`Api.handleTokenRefresh`: on a 401 whose request has not been retried
(`!originalRequest._retry`), set the per-request flag and call
`Api.refreshToken` (whose outcome, the new token or `null`, is the parameter
`refreshResult`); a `null` refresh performs logout, navigates to the sign-in
route when a navigate function was injected, and rejects with the original
error; a successful refresh replays the original request.  Everything else is
rejected unchanged. -/
def interceptError (alreadyRetried : Bool) (status : Option Nat) (errorId : Nat)
    (refreshResult : Option Nat) (navigatePresent : Bool) : ErrorOutcome :=
  if status = some 401 ∧ alreadyRetried = false then
    match refreshResult with
    | none =>
      ErrorOutcome.reject status errorId
        ([ClientEffect.refreshCall, ClientEffect.logoutCall] ++
          (if navigatePresent then [ClientEffect.navigateSignIn] else []))
    | some _ => ErrorOutcome.replay [ClientEffect.refreshCall]
  else ErrorOutcome.reject status errorId []

/-- Environment driving one request through the client: the outcome of the
first HTTP attempt, the outcome `Api.refreshToken` would produce if called,
the outcome of the replayed attempt if one happens, and whether a navigate
function was injected into the `Api` instance. -/
structure RequestEnv where
  firstAttempt : HttpResult
  refreshResult : Option Nat
  secondAttempt : HttpResult
  navigatePresent : Bool

/-- Runs one request through the client with the interceptor attached.  The
first attempt carries `_retry = false`; the interceptor's `replay` re-issues
the request whose `_retry` flag it just set to `true`, so an error on the
replay meets the interceptor with `alreadyRetried = true` and is rejected
(the `replay` case there is unreachable).  Returns the overall promise
outcome and the ordered effect trace. -/
def runClientRequest (env : RequestEnv) : HttpResult × List ClientEffect :=
  match env.firstAttempt with
  | HttpResult.ok r => (HttpResult.ok r, [ClientEffect.httpAttempt 0])
  | HttpResult.err st eid =>
    match interceptError false st eid env.refreshResult env.navigatePresent with
    | ErrorOutcome.reject st1 eid1 effs =>
      (HttpResult.err st1 eid1, ClientEffect.httpAttempt 0 :: effs)
    | ErrorOutcome.replay effs =>
      match env.secondAttempt with
      | HttpResult.ok r =>
        (HttpResult.ok r, ClientEffect.httpAttempt 0 :: effs ++ [ClientEffect.httpAttempt 1])
      | HttpResult.err st2 eid2 =>
        match interceptError true st2 eid2 env.refreshResult env.navigatePresent with
        | ErrorOutcome.reject st3 eid3 effs2 =>
          (HttpResult.err st3 eid3,
            ClientEffect.httpAttempt 0 :: effs ++ [ClientEffect.httpAttempt 1] ++ effs2)
        | ErrorOutcome.replay _ =>
          (HttpResult.err st2 eid2, ClientEffect.httpAttempt 0 :: effs)

/-- Counts HTTP attempts in an effect trace. -/
def countAttempts (l : List ClientEffect) : Nat :=
  l.countP (fun e => match e with | ClientEffect.httpAttempt _ => true | _ => false)

/-- Counts token-refresh calls in an effect trace. -/
def countRefreshCalls (l : List ClientEffect) : Nat :=
  l.countP (fun e => match e with | ClientEffect.refreshCall => true | _ => false)

/-! ## Booking view (`BookRoomView`) -/

/-- Embeds `RoomsDropdownOption`. -/
structure RoomsDropdownOption where
  value : String
  text : String
  seats : Nat
  floor : String
deriving DecidableEq

/-- Embeds `createRoomDropdownOptions(rooms)`. -/
def createRoomDropdownOptions (rooms : List IConferenceRoom) : List RoomsDropdownOption :=
  rooms.map (fun room =>
    { value := room.email, text := room.name, seats := room.seats, floor := room.floor })

/-- Embeds the booking form's `FormData` fields used by the flow. -/
structure FormData where
  startTime : String
  duration : Nat
  seats : Nat
  room : Option String
  conference : Bool
  attendees : List String
  title : Option String
deriving DecidableEq

/-- Embeds the stored user preferences the flow reads (`floor`, `title`). -/
structure Preferences where
  floor : Option String
  title : Option String
deriving DecidableEq

/-- Embeds the `BookRoomView` component state touched by the availability and
booking flows.  Outstanding `AbortController`s are identified by numeric ids:
`abortCtrl` is `abortControllerRef.current` and `abortedCtrls` records every
controller on which `.abort()` has been called. -/
structure BookRoomState where
  bookClickLoading : Bool
  roomLoading : Bool
  formData : FormData
  availableRoomOptions : List RoomsDropdownOption
  abortCtrl : Option Nat
  abortedCtrls : List Nat
deriving DecidableEq

/-- Observable side effects of the booking view. -/
inductive ViewEffect where
  | abortRequest (id : Nat)
  | availabilityRequest (id : Nat)
  | renderErrorEffect
deriving DecidableEq

/-- Embeds the synchronous prefix of `setAvailableRooms()` up to the awaited
`api.getAvailableRooms` call: set the room-loading flag, abort the previous
controller if one is outstanding, install a fresh controller (`newCtrl`), and
issue the availability request under it. -/
def setAvailableRoomsStart (s : BookRoomState) (newCtrl : Nat) :
    BookRoomState × List ViewEffect :=
  let s1 := { s with roomLoading := true }
  match s1.abortCtrl with
  | some oldId =>
    ({ s1 with abortCtrl := some newCtrl, abortedCtrls := oldId :: s1.abortedCtrls },
      [ViewEffect.abortRequest oldId, ViewEffect.availabilityRequest newCtrl])
  | none =>
    ({ s1 with abortCtrl := some newCtrl }, [ViewEffect.availabilityRequest newCtrl])

/-- Embeds the continuation of `setAvailableRooms()` after its awaited call
resolves with envelope `res`: clear the room-loading flag, drop an "ignore"
envelope, surface an "error" envelope via `renderError`, and otherwise select
the first returned room and rebuild the room dropdown options. -/
def setAvailableRoomsResume (s : BookRoomState) (res : ApiResponse (List IConferenceRoom)) :
    BookRoomState × List ViewEffect :=
  let s1 := { s with roomLoading := false }
  if res.status = "ignore" then (s1, [])
  else if res.status = "error" then (s1, [ViewEffect.renderErrorEffect])
  else
    let data := res.data.getD []
    let roomEmail : Option String :=
      match data with
      | [] => none
      | r :: _ => some r.email
    let roomOptions : List RoomsDropdownOption :=
      match data with
      | [] => []
      | _ :: _ => createRoomDropdownOptions data
    ({ s1 with
        formData := { s1.formData with room := roomEmail },
        availableRoomOptions := roomOptions }, [])

/-- Embeds the synchronous prefix of `onBookClick()` up to the awaited
`api.createEvent` call: it first sets the booking-loading flag, then returns
early when no room is selected (issuing no request), and otherwise builds the
`BookRoomDto` payload (JS falsy checks on `floor` and `title` map the empty
string to an absent value).  The second component is the `createEvent` request
issued, if any. -/
def onBookClickStart (s : BookRoomState) (prefs : Preferences)
    (formattedStartTime timeZone : String) : BookRoomState × Option BookRoomDto :=
  let s1 := { s with bookClickLoading := true }
  match s1.formData.room with
  | none => (s1, none)
  | some room =>
    (s1, some {
      startTime := formattedStartTime,
      duration := s1.formData.duration,
      seats := s1.formData.seats,
      floor := (match prefs.floor with
        | some f => if f = "" then none else some f
        | none => none),
      timeZone := timeZone,
      createConference := s1.formData.conference,
      title := (match s1.formData.title with
        | some t => if t = "" then prefs.title else some t
        | none => prefs.title),
      room := room,
      attendees := s1.formData.attendees })

/-! ## Concrete instances used by counterexamples and witnesses -/

/-- Spec-side rendering of the §4.1 description of `formatTime`: h=0 and h=12
both display as 12, other hours display as `h % 12`, minutes below 10 are
zero-padded, and the AM/PM suffix is chosen on the pre-modulo hour. -/
def formatTimeSpec (h m : Nat) : String :=
  let displayHour := if h = 0 ∨ h = 12 then 12 else h % 12
  let minuteStr := if m < 10 then "0" ++ toString m else toString m
  toString displayHour ++ ":" ++ minuteStr ++ " " ++ (if h < 12 then "AM" else "PM")

/-- Form state of an idle booking view with no room selected. -/
def c1Form : FormData :=
  { startTime := "2:00 PM", duration := 30, seats := 2, room := none,
    conference := false, attendees := [], title := none }

/-- Idle booking view before any availability query. -/
def c1State0 : BookRoomState :=
  { bookClickLoading := false, roomLoading := false, formData := c1Form,
    availableRoomOptions := [], abortCtrl := none, abortedCtrls := [] }

/-- State after the first availability query R1 (controller 1) starts. -/
def c1State1 : BookRoomState := (setAvailableRoomsStart c1State0 1).1

/-- State after the second availability query R2 (controller 2) starts while
R1 is still outstanding: controller 1 has been aborted and R2 is in flight. -/
def c1State2 : BookRoomState := (setAvailableRoomsStart c1State1 2).1

/-- Booking view with no room selected, used for the submission claims. -/
def c4State : BookRoomState :=
  { bookClickLoading := false, roomLoading := false,
    formData := { startTime := "2:00 PM", duration := 30, seats := 2, room := none,
                  conference := false, attendees := [], title := none },
    availableRoomOptions := [], abortCtrl := none, abortedCtrls := [] }

/-- Stored preferences used by the submission claims. -/
def c4Prefs : Preferences := { floor := none, title := some "Quick meeting" }

/-! ## Helper lemmas -/

theorem filterMap_ite_congr {α β : Type} (p q : α → Prop) [DecidablePred p] [DecidablePred q]
    (f : α → β) (l : List α) (hpq : ∀ a, p a ↔ q a) :
    (l.filterMap fun a => if p a then some (f a) else none) =
      (l.filter fun a => decide (q a)).map f := by
  induction l with
  | nil => rfl
  | cons a t ih =>
    by_cases hq : q a
    · have hp : p a := (hpq a).mpr hq
      simp [List.filterMap_cons, List.filter_cons, hp, hq, ih]
    · have hp : ¬ p a := fun hcontra => hq ((hpq a).mp hcontra)
      simp [List.filterMap_cons, List.filter_cons, hp, hq, ih]

theorem filter_range_le (c : Nat) : ∀ n,
    (List.range n).filter (fun i => decide (c ≤ i)) = List.range' c (n - c) := by
  intro n
  induction n with
  | zero => simp
  | succ k ih =>
    rw [List.range_succ, List.filter_append, ih]
    by_cases hc : c ≤ k
    · have hstep : k + 1 - c = (k - c) + 1 := by omega
      rw [hstep, List.range'_concat]
      have hk : c + 1 * (k - c) = k := by omega
      simp [List.filter_cons, hc, hk]
    · have h1 : k - c = 0 := by omega
      have h2 : k + 1 - c = 0 := by omega
      simp [List.filter_cons, h1, h2, hc]

theorem chain'_range'_step (s n : Nat) :
    List.Chain' (fun a b => b = a + 1) (List.range' s n) := by
  induction n generalizing s with
  | zero => simp
  | succ k ih =>
    cases k with
    | zero => simp [List.range']
    | succ j =>
      rw [show List.range' s (j + 1 + 1) = s :: List.range' (s + 1) (j + 1) from rfl]
      rw [show List.range' (s + 1) (j + 1) = (s + 1) :: List.range' (s + 2) j from rfl]
      rw [List.chain'_cons]
      refine ⟨rfl, ?_⟩
      have hmain := ih (s + 1)
      rwa [show List.range' (s + 1) (j + 1) = (s + 1) :: List.range' (s + 2) j from rfl] at hmain

theorem range'_getLast?_eq (s k : Nat) :
    (List.range' s (k + 1)).getLast? = some (s + k) := by
  rw [List.range'_concat]
  simp

theorem populateTimeOptions_eq (h m : Nat) (hm : m ≤ 59) :
    populateTimeOptions h m =
      (List.range' (h * 4 + m / 15) (96 - (h * 4 + m / 15))).map
        (fun i => formatTime (i / 4) (i % 4 * 15)) := by
  have hdead : ¬ m / 15 * 15 = 60 := by omega
  have hbody : populateTimeOptions h m =
      (List.range 96).filterMap (fun i =>
        if toMinutesSinceMidnight h (m / 15 * 15) ≤ toMinutesSinceMidnight (i / 4) (i % 4 * 15)
        then some (formatTime (i / 4) (i % 4 * 15)) else none) := by
    simp [populateTimeOptions, hdead]
  rw [hbody,
    filterMap_ite_congr
      (fun i => toMinutesSinceMidnight h (m / 15 * 15) ≤ toMinutesSinceMidnight (i / 4) (i % 4 * 15))
      (fun i => h * 4 + m / 15 ≤ i)
      (fun i => formatTime (i / 4) (i % 4 * 15))
      (List.range 96)
      (by intro i; simp only [toMinutesSinceMidnight]; omega),
    filter_range_le]

theorem pad2_digits (n : Nat) (hn : n < 100) :
    (pad2 n).data = [Nat.digitChar (n / 10), Nat.digitChar (n % 10)] ∧
    (Nat.digitChar (n / 10)).isDigit = true ∧ (Nat.digitChar (n % 10)).isDigit = true ∧
    digitVal (Nat.digitChar (n / 10)) * 10 + digitVal (Nat.digitChar (n % 10)) = n := by
  have hall : ∀ k, k < 100 →
      (pad2 k).data = [Nat.digitChar (k / 10), Nat.digitChar (k % 10)] ∧
      (Nat.digitChar (k / 10)).isDigit = true ∧ (Nat.digitChar (k % 10)).isDigit = true ∧
      digitVal (Nat.digitChar (k / 10)) * 10 + digitVal (Nat.digitChar (k % 10)) = k := by
    decide
  exact hall n hn

theorem offsetMatch_getTimezoneOffset (o : Int) (ho : o.natAbs ≤ 1440) :
    offsetMatch (getTimezoneOffset o).data =
      some ((if o ≤ 0 then '+' else '-'), o.natAbs / 60, o.natAbs % 60) := by
  have h60 : o.natAbs / 60 < 100 := by omega
  have hm60 : o.natAbs % 60 < 100 := by omega
  obtain ⟨hd1, ha1, hb1, hv1⟩ := pad2_digits (o.natAbs / 60) h60
  obtain ⟨hd2, ha2, hb2, hv2⟩ := pad2_digits (o.natAbs % 60) hm60
  by_cases hsign : o ≤ 0
  · simp only [getTimezoneOffset, if_pos hsign]
    rw [String.data_append, String.data_append, String.data_append, hd1, hd2]
    rw [show (("+" : String).data ++ [Nat.digitChar (o.natAbs / 60 / 10), Nat.digitChar (o.natAbs / 60 % 10)] ++
        (":" : String).data) ++ [Nat.digitChar (o.natAbs % 60 / 10), Nat.digitChar (o.natAbs % 60 % 10)] =
        '+' :: Nat.digitChar (o.natAbs / 60 / 10) :: Nat.digitChar (o.natAbs / 60 % 10) ::
        ':' :: Nat.digitChar (o.natAbs % 60 / 10) :: Nat.digitChar (o.natAbs % 60 % 10) :: [] from rfl]
    rw [offsetMatch, if_pos ⟨Or.inl rfl, ha1, hb1, rfl, ha2, hb2⟩, hv1, hv2]
  · simp only [getTimezoneOffset, if_neg hsign]
    rw [String.data_append, String.data_append, String.data_append, hd1, hd2]
    rw [show (("-" : String).data ++ [Nat.digitChar (o.natAbs / 60 / 10), Nat.digitChar (o.natAbs / 60 % 10)] ++
        (":" : String).data) ++ [Nat.digitChar (o.natAbs % 60 / 10), Nat.digitChar (o.natAbs % 60 % 10)] =
        '-' :: Nat.digitChar (o.natAbs / 60 / 10) :: Nat.digitChar (o.natAbs / 60 % 10) ::
        ':' :: Nat.digitChar (o.natAbs % 60 / 10) :: Nat.digitChar (o.natAbs % 60 % 10) :: [] from rfl]
    rw [offsetMatch, if_pos ⟨Or.inr rfl, ha1, hb1, rfl, ha2, hb2⟩, hv1, hv2]

/-! ## Claim theorems -/

/-- C5 fails on the code: in the environment whose offset string is "+05:30"
(runtime offset −330 minutes), `convertToRFC3339("2024-01-15", "2:00 PM")`
returns "2024-01-15T14:00:00+05:30" — a string that does NOT end in the
claimed literal "T08:30:00+05:30". -/
theorem c5_counterexample :
    getTimezoneOffset (-330) = "+05:30" ∧
    convertToRFC3339 (-330) "2024-01-15" "2:00 PM" = some "2024-01-15T14:00:00+05:30" ∧
    strEndsWith "2024-01-15T14:00:00+05:30" "T08:30:00+05:30" = false := by
  exact ⟨rfl, by decide, by decide⟩

/-- C5 (amended): in the environment whose offset string is "+05:30" (runtime
offset −330 minutes), `convertToRFC3339("2024-01-15", "2:00 PM")` returns a
string ending in "T14:00:00+05:30" — the local wall-clock time with the
offset string appended. -/
theorem c5_rfc3339_example :
    getTimezoneOffset (-330) = "+05:30" ∧
    convertToRFC3339 (-330) "2024-01-15" "2:00 PM" = some "2024-01-15T14:00:00+05:30" ∧
    strEndsWith "2024-01-15T14:00:00+05:30" "T14:00:00+05:30" = true := by
  exact ⟨rfl, by decide, by decide⟩

/-- C6 fails on the code: `getTimezoneOffset` maps a POSITIVE runtime offset
(west of UTC in the JS convention) to a leading '-', not '+' as claimed, and a
non-positive offset to '+', not '-'. -/
theorem c6_counterexample :
    getTimezoneOffset 330 = "-05:30" ∧ (getTimezoneOffset 330).data.head? = some '-' ∧
    getTimezoneOffset (-330) = "+05:30" ∧ (getTimezoneOffset (-330)).data.head? = some '+' := by
  exact ⟨rfl, rfl, rfl, rfl⟩

/-- C6 (amended): `getTimezoneOffset` returns a signed "±HH:MM" string whose
leading sign is '+' exactly when the runtime offset-in-minutes (west positive)
is ≤ 0 and '-' when it is positive, i.e. a positive (west) source offset
yields '-' and a non-positive one yields '+'. -/
theorem c6_sign_convention :
    (∀ o : Int, (getTimezoneOffset o).data.head? = some (if o ≤ 0 then '+' else '-')) ∧
    getTimezoneOffset 330 = "-05:30" ∧ getTimezoneOffset (-330) = "+05:30" := by
  refine ⟨?_, rfl, rfl⟩
  intro o
  by_cases hsign : o ≤ 0
  · simp only [getTimezoneOffset, if_pos hsign]
    rw [String.data_append, String.data_append, String.data_append]
    rfl
  · simp only [getTimezoneOffset, if_neg hsign]
    rw [String.data_append, String.data_append, String.data_append]
    rfl

/-- C7 fails on the code: `populateTimeOptions` floors "now" to the quarter
hour instead of rounding up, so at 14:07 the emitted option "2:00 PM"
(minute 840) is strictly earlier than "now" (minute 847). -/
theorem c7_counterexample :
    formatTime 14 0 ∈ populateTimeOptions 14 7 ∧
    toMinutesSinceMidnight 14 0 < toMinutesSinceMidnight 14 7 := by
  exact ⟨by decide, by decide⟩

/-- C7 (amended): every option emitted by `populateTimeOptions` denotes a
quarter-hour slot at or after "now" rounded DOWN to the previous quarter hour,
hence strictly later than "now" minus 15 minutes; only the current quarter's
slot may precede "now", by at most 14 minutes. -/
theorem c7_slots_after_floor (h m : Nat) (_hh : h ≤ 23) (hm : m ≤ 59) :
    ∀ s ∈ populateTimeOptions h m, ∃ i, i < 96 ∧ s = formatTime (i / 4) (i % 4 * 15) ∧
      toMinutesSinceMidnight h (m / 15 * 15) ≤ 15 * i ∧
      toMinutesSinceMidnight h m < 15 * i + 15 := by
  intro s hs
  rw [populateTimeOptions_eq h m hm] at hs
  rcases List.mem_map.mp hs with ⟨i, hi, rfl⟩
  rw [List.mem_range'_1] at hi
  obtain ⟨hi1, hi2⟩ := hi
  refine ⟨i, by omega, rfl, ?_, ?_⟩ <;> simp only [toMinutesSinceMidnight] <;> omega

/-- C7 witness: the amended statement instantiated at now = 14:07 and at the
emitted option "2:00 PM". -/
theorem c7_slots_after_floor_witness :
    ∃ i, i < 96 ∧ formatTime 14 0 = formatTime (i / 4) (i % 4 * 15) ∧
      toMinutesSinceMidnight 14 (7 / 15 * 15) ≤ 15 * i ∧
      toMinutesSinceMidnight 14 7 < 15 * i + 15 :=
  c7_slots_after_floor 14 7 (by decide) (by decide) (formatTime 14 0) (by decide)

/-- C8: for every call time (h:m), `populateTimeOptions` returns exactly the
quarter-hour slots at or after the 15-minute floor of now — it equals the map
of `formatTime` over the index range' from `h*4 + m/15` to 95, whose members
are exactly the indices of the 96 daily slots whose minute value is ≥ the
floor; indices step by 1 (i.e. slots by 15 minutes, since slot `i` denotes
minute `15*i`), and the last emitted option is always "11:45 PM" (23:45), so
the sequence is never empty for a valid clock reading. -/
theorem c8_populateTimeOptions_exact (h m : Nat) (hh : h ≤ 23) (hm : m ≤ 59) :
    populateTimeOptions h m =
      (List.range' (h * 4 + m / 15) (96 - (h * 4 + m / 15))).map
        (fun i => formatTime (i / 4) (i % 4 * 15)) ∧
    (∀ i, i ∈ List.range' (h * 4 + m / 15) (96 - (h * 4 + m / 15)) ↔
      i < 96 ∧ toMinutesSinceMidnight h (m / 15 * 15) ≤ toMinutesSinceMidnight (i / 4) (i % 4 * 15)) ∧
    (∀ i, toMinutesSinceMidnight (i / 4) (i % 4 * 15) = 15 * i) ∧
    List.Chain' (fun a b => b = a + 1) (List.range' (h * 4 + m / 15) (96 - (h * 4 + m / 15))) ∧
    (populateTimeOptions h m).getLast? = some (formatTime 23 45) := by
  have hc : h * 4 + m / 15 ≤ 95 := by omega
  refine ⟨populateTimeOptions_eq h m hm, ?_, ?_, chain'_range'_step _ _, ?_⟩
  · intro i
    rw [List.mem_range'_1]
    simp only [toMinutesSinceMidnight]
    omega
  · intro i
    simp only [toMinutesSinceMidnight]
    omega
  · rw [populateTimeOptions_eq h m hm, List.getLast?_map]
    rw [show 96 - (h * 4 + m / 15) = (95 - (h * 4 + m / 15)) + 1 from by omega,
      range'_getLast?_eq,
      show h * 4 + m / 15 + (95 - (h * 4 + m / 15)) = 95 from by omega]
    rfl

/-- C8 witness: the statement instantiated at now = 14:07. -/
theorem c8_populateTimeOptions_exact_witness :
    populateTimeOptions 14 7 =
      (List.range' (14 * 4 + 7 / 15) (96 - (14 * 4 + 7 / 15))).map
        (fun i => formatTime (i / 4) (i % 4 * 15)) ∧
    (∀ i, i ∈ List.range' (14 * 4 + 7 / 15) (96 - (14 * 4 + 7 / 15)) ↔
      i < 96 ∧ toMinutesSinceMidnight 14 (7 / 15 * 15) ≤ toMinutesSinceMidnight (i / 4) (i % 4 * 15)) ∧
    (∀ i, toMinutesSinceMidnight (i / 4) (i % 4 * 15) = 15 * i) ∧
    List.Chain' (fun a b => b = a + 1) (List.range' (14 * 4 + 7 / 15) (96 - (14 * 4 + 7 / 15))) ∧
    (populateTimeOptions 14 7).getLast? = some (formatTime 23 45) :=
  c8_populateTimeOptions_exact 14 7 (by decide) (by decide)

/-- C9: `formatTime` agrees with the spec's 12-hour rendering (h=0 and h=12
display as 12, minutes below 10 are zero-padded, AM/PM from the pre-modulo
hour) on every valid hour/minute pair, and matches the three documented
examples. -/
theorem c9_formatTime_spec :
    (∀ h, h ≤ 23 → ∀ m, m ≤ 59 → formatTime h m = formatTimeSpec h m) ∧
    formatTime 0 0 = "12:00 AM" ∧ formatTime 12 0 = "12:00 PM" ∧ formatTime 13 5 = "1:05 PM" := by
  refine ⟨?_, rfl, rfl, rfl⟩
  intro h hh m hm
  interval_cases h <;> simp [formatTime, formatTimeSpec]

/-- C9 witness: the rendering equation instantiated at 13:05. -/
theorem c9_formatTime_spec_witness : formatTime 13 5 = formatTimeSpec 13 5 :=
  c9_formatTime_spec.1 13 (by decide) 5 (by decide)

/-- C10 fails on the code: the offset-string regex always matches (shown here
at runtime offset −330), yet `convertToRFC3339` is NOT total over its
date/time string inputs — an unparseable date/time pair makes the underlying
`Date` invalid and `toISOString` throw (modelled as `none`). -/
theorem c10_counterexample :
    offsetMatch (getTimezoneOffset (-330)).data ≠ none ∧
    convertToRFC3339 (-330) "garbage" "nope" = none := by
  exact ⟨by decide, by decide⟩

/-- C10 (amended): for every runtime offset-in-minutes value (JS offsets are
bounded by a day), the regex match inside `convertToRFC3339` on the string
produced by `getTimezoneOffset` succeeds and recovers the sign and the two
zero-padded components, so the non-null assertion never fails and the
offset-mismatch failure branch is unreachable; `convertToRFC3339` can still
fail, but only on date/time strings that do not parse to a valid timestamp. -/
theorem c10_offset_assertion_safe :
    (∀ o : Int, o.natAbs ≤ 1440 →
      offsetMatch (getTimezoneOffset o).data =
        some ((if o ≤ 0 then '+' else '-'), o.natAbs / 60, o.natAbs % 60)) ∧
    convertToRFC3339 (-330) "2024-01-15" "2:00 PM" ≠ none := by
  refine ⟨?_, by decide⟩
  intro o ho
  exact offsetMatch_getTimezoneOffset o ho

/-- C10 witness: the regex-match statement instantiated at runtime offset
−330 (the "+05:30" environment). -/
theorem c10_offset_assertion_safe_witness :
    offsetMatch (getTimezoneOffset (-330)).data =
      some ((if (-330 : Int) ≤ 0 then '+' else '-'), (-330 : Int).natAbs / 60, (-330 : Int).natAbs % 60) :=
  c10_offset_assertion_safe.1 (-330) (by decide)

/-- C1 fails on the code: in the two-request scenario (R1 started as
controller 1, then R2 as controller 2, so controller 1 is aborted and R2 is
in flight with the room-loading flag set), R1's "ignore" resolution — produced
by `Api.handleError` on the `ERR_CANCELED` abort error — still runs
`setRoomLoading(false)` before the "ignore" check, mutating UI state (the
room-loading flag flips while R2 is still pending), so an "ignore" resolution
does NOT leave all UI/form state unchanged. -/
theorem c1_counterexample :
    c1State2.roomLoading = true ∧ (1 : Nat) ∈ c1State2.abortedCtrls ∧
    (Api.handleError (⟨some "ERR_CANCELED", none⟩ : ApiError (List IConferenceRoom))).status
      = "ignore" ∧
    (setAvailableRoomsResume c1State2
        (Api.handleError (⟨some "ERR_CANCELED", none⟩ : ApiError (List IConferenceRoom)))).1
      ≠ c1State2 ∧
    (setAvailableRoomsResume c1State2
        (Api.handleError (⟨some "ERR_CANCELED", none⟩ : ApiError (List IConferenceRoom)))).1.roomLoading
      = false := by
  exact ⟨rfl, by decide, rfl, by decide, rfl⟩

/-- C1 (amended): starting a new availability query aborts the outstanding
controller (not merely drops its result); the aborted request resolves with
an "ignore" envelope via `Api.handleError`; an "ignore" resolution leaves the
displayed room options and all form data unchanged and applies no result —
its only state change is resetting the room-loading flag — and a "success"
resolution (the most recent query's) is the one that updates the room options
and the selected room. -/
theorem c1_supersession_amended :
    (∀ (s : BookRoomState) (oldId newId : Nat), s.abortCtrl = some oldId →
      (setAvailableRoomsStart s newId).1.abortedCtrls = oldId :: s.abortedCtrls ∧
      ViewEffect.abortRequest oldId ∈ (setAvailableRoomsStart s newId).2 ∧
      (setAvailableRoomsStart s newId).1.abortCtrl = some newId ∧
      (setAvailableRoomsStart s newId).1.roomLoading = true) ∧
    (∀ (e : ApiError (List IConferenceRoom)), e.code = some "ERR_CANCELED" →
      (Api.handleError e).status = "ignore") ∧
    (∀ (s : BookRoomState) (res : ApiResponse (List IConferenceRoom)), res.status = "ignore" →
      setAvailableRoomsResume s res = ({ s with roomLoading := false }, [])) ∧
    (∀ (s : BookRoomState) (res : ApiResponse (List IConferenceRoom))
      (r : IConferenceRoom) (rest : List IConferenceRoom),
      res.status = "success" → res.data = some (r :: rest) →
      (setAvailableRoomsResume s res).1.availableRoomOptions =
        createRoomDropdownOptions (r :: rest) ∧
      (setAvailableRoomsResume s res).1.formData.room = some r.email) := by
  refine ⟨?_, ?_, ?_, ?_⟩
  · intro s oldId newId hctrl
    simp [setAvailableRoomsStart, hctrl]
  · intro e he
    simp [Api.handleError, Api.createReply, he]
  · intro s res hst
    simp [setAvailableRoomsResume, hst]
  · intro s res r rest hst hdata
    simp [setAvailableRoomsResume, hst, hdata]

/-- C1 witness: the "ignore" frame condition instantiated at the concrete
two-request state. -/
theorem c1_supersession_amended_witness :
    setAvailableRoomsResume c1State2
        { status := "ignore", message := some "Pending request aborted", data := none } =
      ({ c1State2 with roomLoading := false }, []) :=
  c1_supersession_amended.2.2.1 c1State2
    { status := "ignore", message := some "Pending request aborted", data := none } rfl

/-- C2: on a 401 first response with the per-request retry flag unset, exactly
one token refresh is attempted; a successful refresh replays the request
exactly once and the call resolves with the replayed outcome; a failed
refresh (null) performs logout, navigates to sign-in (a navigate function is
injected by `getInstance`), and propagates the original 401 error; and no
execution ever makes more than two HTTP attempts or more than one refresh. -/
theorem c2_token_refresh_retry :
    (∀ (env : RequestEnv) (eid tok : Nat),
      env.firstAttempt = HttpResult.err (some 401) eid → env.refreshResult = some tok →
      runClientRequest env =
        (env.secondAttempt,
          [ClientEffect.httpAttempt 0, ClientEffect.refreshCall, ClientEffect.httpAttempt 1])) ∧
    (∀ (env : RequestEnv) (eid : Nat),
      env.firstAttempt = HttpResult.err (some 401) eid → env.refreshResult = none →
      env.navigatePresent = true →
      runClientRequest env =
        (HttpResult.err (some 401) eid,
          [ClientEffect.httpAttempt 0, ClientEffect.refreshCall, ClientEffect.logoutCall,
            ClientEffect.navigateSignIn])) ∧
    (∀ env : RequestEnv, countAttempts (runClientRequest env).2 ≤ 2 ∧
      countRefreshCalls (runClientRequest env).2 ≤ 1) := by
  refine ⟨?_, ?_, ?_⟩
  · intro env eid tok h1 h2
    obtain ⟨f, r, s, n⟩ := env
    simp only at h1 h2
    subst h1 h2
    cases s with
    | ok v => simp [runClientRequest, interceptError]
    | err st2 eid2 => simp [runClientRequest, interceptError]
  · intro env eid h1 h2 h3
    obtain ⟨f, r, s, n⟩ := env
    simp only at h1 h2 h3
    subst h1 h2 h3
    simp [runClientRequest, interceptError]
  · intro env
    obtain ⟨f, r, s, n⟩ := env
    cases f with
    | ok v => simp [runClientRequest, countAttempts, countRefreshCalls]
    | err st eid =>
      by_cases hst : st = some 401
      · subst hst
        cases r with
        | none =>
          cases n <;>
            simp [runClientRequest, interceptError, countAttempts, countRefreshCalls]
        | some tok =>
          cases s with
          | ok v =>
            simp [runClientRequest, interceptError, countAttempts, countRefreshCalls]
          | err st2 eid2 =>
            by_cases hst2 : st2 = some 401 <;>
              simp [runClientRequest, interceptError, countAttempts, countRefreshCalls, hst2]
      · simp [runClientRequest, interceptError, hst, countAttempts, countRefreshCalls]

/-- C2 witness: a 401 first attempt with a successful refresh, instantiated
concretely: the replayed response resolves the call after exactly one refresh
and two attempts. -/
theorem c2_token_refresh_retry_witness :
    runClientRequest
        { firstAttempt := HttpResult.err (some 401) 7, refreshResult := some 99,
          secondAttempt := HttpResult.ok 3, navigatePresent := true } =
      (HttpResult.ok 3,
        [ClientEffect.httpAttempt 0, ClientEffect.refreshCall, ClientEffect.httpAttempt 1]) :=
  c2_token_refresh_retry.1
    { firstAttempt := HttpResult.err (some 401) 7, refreshResult := some 99,
      secondAttempt := HttpResult.ok 3, navigatePresent := true } 7 99 rfl rfl

/-- C3: every public domain operation of the API client resolves every thrown
error through `Api.handleError` (and a resolved call to its envelope), so no
method throws; `handleError` maps a cancellation (`ERR_CANCELED`) to the
"ignore" envelope — never "error" — returns the server's own envelope when
the error carries one, and falls back to the generic error envelope
otherwise. -/
theorem c3_error_policy :
    (∀ (α : Type) (e : ApiError α), e.code = some "ERR_CANCELED" →
      Api.handleError e = Api.createReply "ignore" (some "Pending request aborted") none ∧
      (Api.handleError e).status = "ignore" ∧ (Api.handleError e).status ≠ "error") ∧
    (∀ (α : Type) (e : ApiError α) (res : ApiResponse α), e.code ≠ some "ERR_CANCELED" →
      e.responseData = some res → Api.handleError e = res) ∧
    (∀ (α : Type) (e : ApiError α), e.code ≠ some "ERR_CANCELED" → e.responseData = none →
      Api.handleError e = Api.createReply "error" (some "Something went wrong") none) ∧
    (∀ e, Api.getAvailableRooms (CallOutcome.thrown e) = Api.handleError e) ∧
    (∀ res, Api.getAvailableRooms (CallOutcome.resolved res) = res) ∧
    (∀ e, Api.getRooms (CallOutcome.thrown e) = Api.handleError e) ∧
    (∀ res, Api.getRooms (CallOutcome.resolved res) = res) ∧
    (∀ e, Api.createEvent (CallOutcome.thrown e) = Api.handleError e) ∧
    (∀ res, Api.createEvent (CallOutcome.resolved res) = res) ∧
    (∀ e, Api.updateEvent (CallOutcome.thrown e) = Api.handleError e) ∧
    (∀ res, Api.updateEvent (CallOutcome.resolved res) = res) ∧
    (∀ e, Api.deleteEvent (CallOutcome.thrown e) = Api.handleError e) ∧
    (∀ res, Api.deleteEvent (CallOutcome.resolved res) = res) ∧
    (∀ e, Api.getMaxSeatCount (CallOutcome.thrown e) = Api.handleError e) ∧
    (∀ res, Api.getMaxSeatCount (CallOutcome.resolved res) = res) ∧
    (∀ e, Api.getFloors (CallOutcome.thrown e) = Api.handleError e) ∧
    (∀ res, Api.getFloors (CallOutcome.resolved res) = res) := by
  refine ⟨?_, ?_, ?_, fun e => rfl, fun res => rfl, fun e => rfl, fun res => rfl,
    fun e => rfl, fun res => rfl, fun e => rfl, fun res => rfl, fun e => rfl, fun res => rfl,
    fun e => rfl, fun res => rfl, fun e => rfl, fun res => rfl⟩
  · intro α e he
    refine ⟨?_, ?_, ?_⟩ <;> simp [Api.handleError, Api.createReply, he]
  · intro α e res he hres
    simp [Api.handleError, Api.createReply, he, hres]
  · intro α e he hres
    simp [Api.handleError, Api.createReply, he, hres]

/-- C3 witness: the cancellation policy instantiated at a concrete abort
error. -/
theorem c3_error_policy_witness :
    Api.handleError (⟨some "ERR_CANCELED", none⟩ : ApiError (List IConferenceRoom)) =
      Api.createReply "ignore" (some "Pending request aborted") none ∧
    (Api.handleError (⟨some "ERR_CANCELED", none⟩ : ApiError (List IConferenceRoom))).status
      = "ignore" ∧
    (Api.handleError (⟨some "ERR_CANCELED", none⟩ : ApiError (List IConferenceRoom))).status
      ≠ "error" :=
  c3_error_policy.1 (List IConferenceRoom) ⟨some "ERR_CANCELED", none⟩ rfl

/-- C4 fails on the code: `onBookClick` sets the booking-loading flag BEFORE
checking for a selected room, so invoking it with no room selected issues no
`createEvent` request but does change component state — `bookClickLoading`
flips to `true` (and the early return never resets it). -/
theorem c4_counterexample :
    (onBookClickStart c4State c4Prefs "2024-01-15T14:00:00+05:30" "Asia/Dhaka").2 = none ∧
    (onBookClickStart c4State c4Prefs "2024-01-15T14:00:00+05:30" "Asia/Dhaka").1 ≠ c4State ∧
    (onBookClickStart c4State c4Prefs "2024-01-15T14:00:00+05:30" "Asia/Dhaka").1.bookClickLoading
      = true := by
  exact ⟨rfl, by decide, rfl⟩

/-- C4 (amended): invoking booking submission with no selected room issues no
`createEvent` request and changes no component state other than setting the
booking-loading flag to `true` (which the early return leaves set). -/
theorem c4_no_room_no_request (s : BookRoomState) (p : Preferences) (fst tz : String)
    (hroom : s.formData.room = none) :
    (onBookClickStart s p fst tz).2 = none ∧
    (onBookClickStart s p fst tz).1 = { s with bookClickLoading := true } := by
  simp [onBookClickStart, hroom]

/-- C4 witness: the amended statement instantiated at the concrete no-room
state. -/
theorem c4_no_room_no_request_witness :
    (onBookClickStart c4State c4Prefs "2024-01-15T14:00:00+05:30" "Asia/Dhaka").2 = none ∧
    (onBookClickStart c4State c4Prefs "2024-01-15T14:00:00+05:30" "Asia/Dhaka").1 =
      { c4State with bookClickLoading := true } :=
  c4_no_room_no_request c4State c4Prefs "2024-01-15T14:00:00+05:30" "Asia/Dhaka" rfl

end Bookify
